import Mathlib

/-!
Verification of the translation helper in `src/app.py` (Translet).

The core under scrutiny is `translate_block` (app.py lines 70-85) together
with `sync_cache_to_browser` (lines 58-63), `LANG_MAP` (lines 15-20) and the
spreadsheet processing branch that maps `translate_block` over a column
(lines 182-192, `df[col].apply(...)`).

Shallow embedding choices:
* Cell values are `String`s (the `object`-dtype cells the app translates);
  Python's `str(text)` is then the identity and `not text` is `text = ""`.
* Python's `str.strip()` is `pyStrip`, defined structurally on the
  character list: drop ASCII whitespace on both ends.
* The mutable session state (`st.session_state.local_cache`, the browser
  local storage, and the observable side effects: provider invocations and
  `time.sleep` pauses) is threaded explicitly as a `St` record.  The dict
  `local_cache` is an association list; Python's dict assignment
  `d[k] = v` is modelled by consing `(k, v)` in front, which is
  extensionally the same for `List.lookup`.
* The external provider `GoogleTranslator(source=src, target=target)
  .translate(clean_text)` is a parameter.  It receives the index of the
  invocation (how many provider calls happened before, so a test oracle can
  fail on early attempts and succeed later), the source and target codes and
  the text, and returns `Except ε String`: `Except.error` models a raised
  fault, which the bare `except:` of the Python code absorbs.
* `local_storage.setItem` may raise; `persistFail : Bool` says whether it
  does, and `sync_cache_to_browser`'s bare `except: pass` swallows it.
* `time.sleep(0.05)` is recorded as a 50 (milliseconds) entry in `sleeps`.
-/

set_option maxHeartbeats 1000000

namespace Translet

/-- The language name to code table, `LANG_MAP` of app.py lines 15-20. -/
def LANG_MAP : List (String × String) := [
  ("Auto Detect", "auto"), ("English", "en"), ("French", "fr"), ("Spanish", "es"),
  ("German", "de"), ("Italian", "it"), ("Portuguese", "pt"), ("Chinese (Simplified)", "zh-CN"),
  ("Japanese", "ja"), ("Korean", "ko"), ("Russian", "ru"), ("Arabic", "ar"),
  ("Hindi", "hi"), ("Turkish", "tr"), ("Dutch", "nl"), ("Greek", "el")]

/-- The language codes, the values of `LANG_MAP`: what `src_code` and
`target_code` range over (app.py lines 145-146). -/
def langCodes : List String := LANG_MAP.map Prod.snd

/-- The explicit state threaded through `translate_block`:
`cache` is `st.session_state.local_cache`, `store` is the browser local
storage content under the key "translet_cache", `calls` records every
provider invocation (the translated string of each call, in order) and
`sleeps` records every `time.sleep` duration in milliseconds. -/
structure St where
  cache : List (String × String)
  store : List (String × String)
  calls : List String
  sleeps : List Nat
deriving DecidableEq, Repr

/-- A fresh session state: empty cache, empty browser store, no observed
provider calls or sleeps. -/
def st0 : St := ⟨[], [], [], []⟩

/-- The characters Python's `str.strip()` removes by default (ASCII
whitespace: space, tab, newline, carriage return, vertical tab, form
feed). -/
def isPySpace (c : Char) : Bool :=
  c = ' ' || c = '\t' || c = '\n' || c = '\r' || c = '\x0b' || c = '\x0c'

/-- Python's `str.strip()`: remove leading and trailing whitespace. -/
def pyStrip (s : String) : String :=
  ⟨((s.data.dropWhile isPySpace).reverse.dropWhile isPySpace).reverse⟩

/-- app.py lines 58-63: `sync_cache_to_browser` saves the cache to the
browser with `setItem`; a bare `except: pass` swallows any fault, so when
persisting fails the store is simply left unchanged. -/
def sync_cache_to_browser (persistFail : Bool) (st : St) : St :=
  if persistFail then st else { st with store := st.cache }

/-- app.py line 73: `cache_key = f"{src}-{target}:{clean_text}"`. -/
def cache_key (src target clean_text : String) : String :=
  src ++ "-" ++ target ++ ":" ++ clean_text

/-- app.py lines 70-85, `translate_block(text, src, target)`:

```
def translate_block(text, src, target):
    if not text or len(str(text).strip()) < 2: return text
    clean_text = str(text).strip()
    cache_key = f"{src}-{target}:{clean_text}"
    if cache_key in st.session_state.local_cache:
        return st.session_state.local_cache[cache_key]
    try:
        time.sleep(0.05)
        res = GoogleTranslator(source=src, target=target).translate(clean_text)
        st.session_state.local_cache[cache_key] = res
        sync_cache_to_browser()
        return res
    except:
        return text
```

The `try` block sleeps, invokes the provider (recorded in `calls` and
`sleeps` whether or not it raises), and on success writes the cache and
syncs it to the browser; on a raised fault it returns the raw `text`. -/
def translate_block {ε : Type} (provider : Nat → String → String → String → Except ε String)
    (persistFail : Bool) (text src target : String) (st : St) : String × St :=
  if text = "" ∨ (pyStrip text).length < 2 then (text, st)
  else
    match List.lookup (cache_key src target (pyStrip text)) st.cache with
    | some v => (v, st)
    | none =>
        match provider st.calls.length src target (pyStrip text) with
        | Except.ok res =>
            (res, sync_cache_to_browser persistFail
              { st with
                  sleeps := st.sleeps ++ [50],
                  calls := st.calls ++ [pyStrip text],
                  cache := (cache_key src target (pyStrip text), res) :: st.cache })
        | Except.error _ =>
            (text, { st with
                       sleeps := st.sleeps ++ [50],
                       calls := st.calls ++ [pyStrip text] })

/-- app.py line 186: `df[col] = df[col].apply(lambda x: translate_block(x, ...))`,
mapping `translate_block` over the cells of a column in order while the
session state evolves. -/
def translateList {ε : Type} (provider : Nat → String → String → String → Except ε String)
    (persistFail : Bool) (src target : String) : List String → St → List String × St
  | [], st => ([], st)
  | x :: xs, st =>
      let p := translate_block provider persistFail x src target st
      let q := translateList provider persistFail src target xs p.2
      (p.1 :: q.1, q.2)

/-! Helper facts about `sync_cache_to_browser`: it only ever touches the
browser store. -/

@[simp] theorem sync_calls_eq (pf : Bool) (st : St) :
    (sync_cache_to_browser pf st).calls = st.calls := by
  cases pf <;> rfl

@[simp] theorem sync_cache_eq (pf : Bool) (st : St) :
    (sync_cache_to_browser pf st).cache = st.cache := by
  cases pf <;> rfl

@[simp] theorem sync_sleeps_eq (pf : Bool) (st : St) :
    (sync_cache_to_browser pf st).sleeps = st.sleeps := by
  cases pf <;> rfl

/-! Path lemmas: one equation per control path of `translate_block`. -/

/-- Guard path (line 71): a falsy value or a trimmed length below 2 is
returned as is, with the state untouched. -/
theorem translate_block_guard {ε : Type}
    (provider : Nat → String → String → String → Except ε String)
    (pf : Bool) (text src target : String) (st : St)
    (h : text = "" ∨ (pyStrip text).length < 2) :
    translate_block provider pf text src target st = (text, st) := by
  unfold translate_block
  rw [if_pos h]

/-- Cache hit path (lines 75-76): the cached value is returned, state
untouched. -/
theorem translate_block_hit {ε : Type}
    (provider : Nat → String → String → String → Except ε String)
    (pf : Bool) (text src target : String) (st : St) (v : String)
    (h1 : ¬(text = "" ∨ (pyStrip text).length < 2))
    (h2 : List.lookup (cache_key src target (pyStrip text)) st.cache = some v) :
    translate_block provider pf text src target st = (v, st) := by
  unfold translate_block
  rw [if_neg h1, h2]

/-- Successful call path (lines 78-83): sleep, call the provider, write the
cache, sync to the browser, return the translation. -/
theorem translate_block_ok {ε : Type}
    (provider : Nat → String → String → String → Except ε String)
    (pf : Bool) (text src target : String) (st : St) (res : String)
    (h1 : ¬(text = "" ∨ (pyStrip text).length < 2))
    (h2 : List.lookup (cache_key src target (pyStrip text)) st.cache = none)
    (h3 : provider st.calls.length src target (pyStrip text) = Except.ok res) :
    translate_block provider pf text src target st
      = (res, sync_cache_to_browser pf
          { st with
              sleeps := st.sleeps ++ [50],
              calls := st.calls ++ [pyStrip text],
              cache := (cache_key src target (pyStrip text), res) :: st.cache }) := by
  unfold translate_block
  rw [if_neg h1, h2, h3]

/-- Fault path (lines 84-85): the bare `except:` returns the raw input; the
sleep and the provider invocation did happen, the cache and store did not
change. -/
theorem translate_block_err {ε : Type}
    (provider : Nat → String → String → String → Except ε String)
    (pf : Bool) (text src target : String) (st : St) (e : ε)
    (h1 : ¬(text = "" ∨ (pyStrip text).length < 2))
    (h2 : List.lookup (cache_key src target (pyStrip text)) st.cache = none)
    (h3 : provider st.calls.length src target (pyStrip text) = Except.error e) :
    translate_block provider pf text src target st
      = (text, { st with
                   sleeps := st.sleeps ++ [50],
                   calls := st.calls ++ [pyStrip text] }) := by
  unfold translate_block
  rw [if_neg h1, h2, h3]

/-! Test providers (oracles standing for `GoogleTranslator`). -/

/-- A provider that translates everything to the fixed string "xyz". -/
def provC1 : Nat → String → String → String → Except Unit String :=
  fun _ _ _ _ => Except.ok "xyz"

/-- A provider that knows only "Hello" (to "Bonjour") and faults on
anything else: the oracle of the spec's dedup scenario. -/
def provC2 : Nat → String → String → String → Except Unit String :=
  fun _ _ _ t => if t = "Hello" then Except.ok "Bonjour" else Except.error ()

/-- A provider that faults on its first two invocations and succeeds from
the third on: the oracle of the spec's retry scenario. -/
def provC3 : Nat → String → String → String → Except Unit String :=
  fun i _ _ _ => if i < 2 then Except.error () else Except.ok "Bonjour le monde"

/-- A provider that appends "X" to its input. -/
def provC7 : Nat → String → String → String → Except Unit String :=
  fun _ _ _ t => Except.ok (t ++ "X")

/-- A provider that always succeeds with "Bonjour". -/
def provOk : Nat → String → String → String → Except Unit String :=
  fun _ _ _ _ => Except.ok "Bonjour"

/-- A provider that always raises. -/
def provFail : Nat → String → String → String → Except Unit String :=
  fun _ _ _ _ => Except.error ()

/-- Claim C1, counterexample: "123" contains no alphabetic character, so per
the claim it must be returned unchanged and never submitted; but the code
only tests trimmed length < 2, so "123" IS submitted to the provider (one
recorded call) and the provider's answer "xyz" is returned instead of
"123". -/
theorem c1_counterexample :
    (translate_block provC1 false "123" "en" "fr" st0).1 = "xyz"
    ∧ (translate_block provC1 false "123" "en" "fr" st0).2.calls = ["123"] := by
  constructor <;> decide

/-- Claim C1, amended: every value that is empty after trimming (empty or
whitespace-only) is returned unchanged and never submitted to the provider —
the state, in particular the list of provider calls, is untouched.  The
"containing no alphabetic character" part of the claim does not hold (see
the counterexample): the code filters only on trimmed length. -/
theorem c1_empty_after_trim_passthrough {ε : Type}
    (provider : Nat → String → String → String → Except ε String)
    (pf : Bool) (text src target : String) (st : St)
    (h : pyStrip text = "") :
    translate_block provider pf text src target st = (text, st) := by
  apply translate_block_guard
  right
  rw [h]
  decide

/-- Claim C1, witness: the whitespace-only value "  " passes through. -/
theorem c1_witness :
    translate_block provC1 false "  " "en" "fr" st0 = ("  ", st0) :=
  c1_empty_after_trim_passthrough provC1 false "  " "en" "fr" st0 (by decide)

/-- Claim C2, counterexample: on input ["Hello", "", "123", "Hello"] the
provider is NOT invoked with only the one unique string "Hello": the
no-letters string "123" is submitted too. -/
theorem c2_counterexample :
    (translateList provC2 false "en" "fr" ["Hello", "", "123", "Hello"] st0).2.calls
      ≠ ["Hello"] := by decide

/-- Claim C2, amended: on input ["Hello", "", "123", "Hello"] with source
"en", target "fr" and a provider mapping "Hello" to "Bonjour", the result is
["Bonjour", "", "123", "Bonjour"] — duplicates resolve to the same value
through the cache, and the provider is invoked at most once per unique
string — but the strings submitted are "Hello" AND "123" (the length-only
guard does not exempt "123"), each exactly once. -/
theorem c2_dedup_via_cache :
    (translateList provC2 false "en" "fr" ["Hello", "", "123", "Hello"] st0).1
      = ["Bonjour", "", "123", "Bonjour"]
    ∧ (translateList provC2 false "en" "fr" ["Hello", "", "123", "Hello"] st0).2.calls
      = ["Hello", "123"] := by
  constructor <;> decide

/-- Claim C3, counterexample: with a provider that faults on attempts 1 and 2
and would succeed on attempt 3, `translate_block` gives up after the FIRST
fault: it returns the original text (not the translation), having made
exactly one provider call and slept only the fixed 50 ms pre-call pause —
there are no 2^attempt backoff delays at all. -/
theorem c3_counterexample :
    translate_block provC3 false "Hello world" "en" "fr" st0
      = ("Hello world", ⟨[], [], ["Hello world"], [50]⟩) := by
  decide

/-- Claim C3, amended: there is no retry loop and no exponential backoff in
the code: on any provider fault `translate_block` immediately falls back to
the original text, with exactly one provider invocation and one fixed 50 ms
sleep recorded, and the cache and store untouched. -/
theorem c3_single_attempt_no_backoff {ε : Type}
    (provider : Nat → String → String → String → Except ε String)
    (pf : Bool) (text src target : String) (st : St) (e : ε)
    (h1 : ¬(text = "" ∨ (pyStrip text).length < 2))
    (h2 : List.lookup (cache_key src target (pyStrip text)) st.cache = none)
    (h3 : provider st.calls.length src target (pyStrip text) = Except.error e) :
    translate_block provider pf text src target st
      = (text, { st with
                   sleeps := st.sleeps ++ [50],
                   calls := st.calls ++ [pyStrip text] }) :=
  translate_block_err provider pf text src target st e h1 h2 h3

/-- Claim C3, witness: the amended behaviour at the retry-scenario oracle. -/
theorem c3_witness :
    translate_block provC3 false "Hello world" "en" "fr" st0
      = ("Hello world", { st0 with
                            sleeps := st0.sleeps ++ [50],
                            calls := st0.calls ++ [pyStrip "Hello world"] }) :=
  c3_single_attempt_no_backoff provC3 false "Hello world" "en" "fr" st0 ()
    (by decide) rfl rfl

/-- Claim C4: a provider fault never propagates to the caller: whatever the
input, if it has no cached translation and the provider raises on every
invocation, `translate_block` still returns (it is a total function) and its
returned value is the item's original text. -/
theorem c4_fault_returns_original {ε : Type}
    (provider : Nat → String → String → String → Except ε String)
    (pf : Bool) (text src target : String) (st : St)
    (hfail : ∀ i s t u, ∃ e, provider i s t u = Except.error e)
    (hmiss : List.lookup (cache_key src target (pyStrip text)) st.cache = none) :
    (translate_block provider pf text src target st).1 = text := by
  by_cases hg : text = "" ∨ (pyStrip text).length < 2
  · rw [translate_block_guard provider pf text src target st hg]
  · obtain ⟨e, he⟩ := hfail st.calls.length src target (pyStrip text)
    rw [translate_block_err provider pf text src target st e hg hmiss he]

/-- Claim C4, witness: the always-raising provider on "Hello". -/
theorem c4_witness :
    (translate_block provFail false "Hello" "en" "fr" st0).1 = "Hello" :=
  c4_fault_returns_original provFail false "Hello" "en" "fr" st0
    (fun _ _ _ _ => ⟨(), rfl⟩) rfl

/-- Claim C5: idempotence. After a first successful translation of a
translatable, not-yet-cached text, calling `translate_block` again with the
same language pair and text returns exactly the value the first call
returned, and leaves the state untouched — in particular no new provider
invocation and no new sleep: the second call is answered from the cache. -/
theorem c5_idempotent {ε : Type}
    (provider : Nat → String → String → String → Except ε String)
    (pf : Bool) (text src target : String) (st : St) (res : String)
    (h1 : ¬(text = "" ∨ (pyStrip text).length < 2))
    (h2 : List.lookup (cache_key src target (pyStrip text)) st.cache = none)
    (h3 : provider st.calls.length src target (pyStrip text) = Except.ok res) :
    translate_block provider pf text src target
        (translate_block provider pf text src target st).2
      = ((translate_block provider pf text src target st).1,
          (translate_block provider pf text src target st).2) := by
  rw [translate_block_ok provider pf text src target st res h1 h2 h3]
  apply translate_block_hit provider pf text src target _ _ h1
  simp [List.lookup]

/-- Claim C5, witness: translating "Hello" twice from a fresh state. -/
theorem c5_witness :
    translate_block provOk false "Hello" "en" "fr"
        (translate_block provOk false "Hello" "en" "fr" st0).2
      = ((translate_block provOk false "Hello" "en" "fr" st0).1,
          (translate_block provOk false "Hello" "en" "fr" st0).2) :=
  c5_idempotent provOk false "Hello" "en" "fr" st0 "Bonjour" (by decide) rfl rfl

/-- Claim C6: mapping `translate_block` over a column of cells preserves the
length and is positional: the i-th output cell is exactly `translate_block`
of the i-th input cell, run in the session state reached after the first i
cells — so no cell is dropped, reordered or duplicated. -/
theorem c6_positional {ε : Type}
    (provider : Nat → String → String → String → Except ε String)
    (pf : Bool) (src target : String) (xs : List String) (st : St) :
    (translateList provider pf src target xs st).1.length = xs.length
    ∧ ∀ i x, xs.get? i = some x →
        (translateList provider pf src target xs st).1.get? i
          = some (translate_block provider pf x src target
              (translateList provider pf src target (xs.take i) st).2).1 := by
  induction xs generalizing st with
  | nil =>
      refine ⟨rfl, ?_⟩
      intro i x h
      simp at h
  | cons y ys ih =>
      refine ⟨?_, ?_⟩
      · simpa [translateList] using
          (ih (translate_block provider pf y src target st).2).1
      · intro i x h
        cases i with
        | zero =>
            simp at h
            subst h
            simp [translateList]
        | succ j =>
            simp only [List.get?] at h
            have hx := (ih (translate_block provider pf y src target st).2).2 j x h
            simpa [translateList] using hx

/-- Claim C6, witness: the spec scenario list, checked at length and at
position 3. -/
theorem c6_witness :
    (translateList provC2 false "en" "fr" ["Hello", "", "123", "Hello"] st0).1.length = 4
    ∧ (translateList provC2 false "en" "fr" ["Hello", "", "123", "Hello"] st0).1.get? 3
        = some (translate_block provC2 false "Hello" "en" "fr"
            (translateList provC2 false "en" "fr"
              (["Hello", "", "123", "Hello"].take 3) st0).2).1 :=
  ⟨(c6_positional provC2 false "en" "fr" ["Hello", "", "123", "Hello"] st0).1,
   (c6_positional provC2 false "en" "fr" ["Hello", "", "123", "Hello"] st0).2 3 "Hello" rfl⟩

/-- Claim C7, counterexample: with chunk size said to be 2, a work list of 5
unique translatable strings is claimed to cause exactly 3 provider calls; the
code performs no chunking at all and makes 5 calls. -/
theorem c7_counterexample :
    (translateList provC7 false "en" "fr" ["aa", "bb", "cc", "dd", "ee"] st0).2.calls.length
      ≠ 3 := by decide

/-- Claim C7, amended: the code never batches: each cache-missing
translatable string is submitted in its own provider call (one string per
call), so 5 unique strings yield exactly the 5 single-string calls
["aa", "bb", "cc", "dd", "ee"]. -/
theorem c7_one_call_per_string :
    (translateList provC7 false "en" "fr" ["aa", "bb", "cc", "dd", "ee"] st0).2.calls
      = ["aa", "bb", "cc", "dd", "ee"]
    ∧ (translateList provC7 false "en" "fr" ["aa", "bb", "cc", "dd", "ee"] st0).1
      = ["aaX", "bbX", "ccX", "ddX", "eeX"] := by
  constructor <;> decide

/-- Claim C9: after each successful translation the cache is synchronized to
the browser store, and a fault while persisting is swallowed silently: when
persisting works the resulting store equals the resulting cache; when
persisting fails the returned value is the same translation and the store is
simply left as it was — nothing propagates. -/
theorem c9_persist_best_effort {ε : Type}
    (provider : Nat → String → String → String → Except ε String)
    (text src target : String) (st : St) (res : String)
    (h1 : ¬(text = "" ∨ (pyStrip text).length < 2))
    (h2 : List.lookup (cache_key src target (pyStrip text)) st.cache = none)
    (h3 : provider st.calls.length src target (pyStrip text) = Except.ok res) :
    ((translate_block provider false text src target st).1 = res
      ∧ (translate_block provider false text src target st).2.store
          = (translate_block provider false text src target st).2.cache)
    ∧ ((translate_block provider true text src target st).1 = res
      ∧ (translate_block provider true text src target st).2.store = st.store) := by
  rw [translate_block_ok provider false text src target st res h1 h2 h3,
      translate_block_ok provider true text src target st res h1 h2 h3]
  exact ⟨⟨rfl, rfl⟩, rfl, rfl⟩

/-- Claim C9, witness: persisting "Hello" with and without a store fault. -/
theorem c9_witness :
    ((translate_block provOk false "Hello" "en" "fr" st0).1 = "Bonjour"
      ∧ (translate_block provOk false "Hello" "en" "fr" st0).2.store
          = (translate_block provOk false "Hello" "en" "fr" st0).2.cache)
    ∧ ((translate_block provOk true "Hello" "en" "fr" st0).1 = "Bonjour"
      ∧ (translate_block provOk true "Hello" "en" "fr" st0).2.store = st0.store) :=
  c9_persist_best_effort provOk "Hello" "en" "fr" st0 "Bonjour" (by decide) rfl rfl

/-- Claim C10: the trimmed-length-below-2 test is the single translatability
check of `translate_block`: any value whose trimmed form is shorter than 2
characters (empty, whitespace-only, or a single character such as "a", which
does contain a letter) is returned unchanged with the whole state untouched
(no cache consultation, no provider call), and conversely any uncached value
of trimmed length at least 2 is submitted to the provider — even a string of
digits with no letter. -/
theorem c10_length_guard {ε : Type}
    (provider : Nat → String → String → String → Except ε String)
    (pf : Bool) (text src target : String) (st : St) :
    ((pyStrip text).length < 2 →
        translate_block provider pf text src target st = (text, st))
    ∧ (2 ≤ (pyStrip text).length →
        List.lookup (cache_key src target (pyStrip text)) st.cache = none →
        (translate_block provider pf text src target st).2.calls
          = st.calls ++ [pyStrip text]) := by
  constructor
  · intro h
    exact translate_block_guard provider pf text src target st (Or.inr h)
  · intro h hmiss
    have hg : ¬(text = "" ∨ (pyStrip text).length < 2) := by
      rintro (rfl | hlt)
      · revert h; decide
      · omega
    cases h3 : provider st.calls.length src target (pyStrip text) with
    | ok res =>
        rw [translate_block_ok provider pf text src target st res hg hmiss h3]
        simp
    | error e =>
        rw [translate_block_err provider pf text src target st e hg hmiss h3]

/-- Claim C10, witness: the single-letter cell "a" passes through untouched,
while the no-letters cell "123" is submitted to the provider. -/
theorem c10_witness :
    translate_block provC1 false "a" "en" "fr" st0 = ("a", st0)
    ∧ (translate_block provC1 false "123" "en" "fr" st0).2.calls = ["123"] :=
  ⟨(c10_length_guard provC1 false "a" "en" "fr" st0).1 (by decide),
   (c10_length_guard provC1 false "123" "en" "fr" st0).2 (by decide) rfl⟩

/-! Facts about the 16 language codes of `LANG_MAP`, and list splitting
lemmas, leading to injectivity of `cache_key` (claim C8). -/

/-- No language code contains a colon, the separator between the language
pair and the text in `cache_key`. -/
theorem codes_no_colon : ∀ s ∈ langCodes, ':' ∉ s.data := by decide

/-- No language code extends another language code by a dash: taking
`c1.length + 1` characters of a code `c2` never yields `c1` followed by
'-' (the only code containing '-' is "zh-CN", and "zh" is not a code). -/
theorem codes_no_dash_ext :
    ∀ c1 ∈ langCodes, ∀ c2 ∈ langCodes,
      c2.data.take (c1.data.length + 1) ≠ c1.data ++ ['-'] := by decide

/-- Splitting at a separator that occurs in neither left part is
unambiguous. -/
theorem append_sep_inj {α : Type} [DecidableEq α] (sep : α) :
    ∀ (a c b d : List α), sep ∉ a → sep ∉ c →
      a ++ sep :: b = c ++ sep :: d → a = c ∧ b = d := by
  intro a
  induction a with
  | nil =>
      intro c b d _ hc h
      cases c with
      | nil =>
          rw [List.nil_append, List.nil_append] at h
          injection h with _ h2
          exact ⟨rfl, h2⟩
      | cons y ys =>
          rw [List.nil_append, List.cons_append] at h
          injection h with h1 _
          rw [h1] at hc
          exact absurd (List.mem_cons_self y ys) hc
  | cons x xs ih =>
      intro c b d ha hc h
      cases c with
      | nil =>
          rw [List.cons_append, List.nil_append] at h
          injection h with h1 _
          rw [← h1] at ha
          exact absurd (List.mem_cons_self x xs) ha
      | cons y ys =>
          rw [List.cons_append, List.cons_append] at h
          injection h with h1 h2
          subst h1
          have hr := ih ys b d (fun hm => ha (List.mem_cons_of_mem _ hm))
            (fun hm => hc (List.mem_cons_of_mem _ hm)) h2
          exact ⟨by rw [hr.1], hr.2⟩

/-- Taking one character past a left part of an append grabs exactly that
part and the following character. -/
theorem take_len_succ_append {α : Type} (l : List α) (x : α) (m : List α) :
    (l ++ x :: m).take (l.length + 1) = l ++ [x] := by
  induction l with
  | nil => rfl
  | cons a l ih => simpa [List.take] using ih

/-- Taking at most the left part of an append stays in the left part. -/
theorem take_append_le {α : Type} (l m : List α) (n : Nat) (h : n ≤ l.length) :
    (l ++ m).take n = l.take n := by
  rw [List.take_append_eq_append_take, Nat.sub_eq_zero_of_le h,
    List.take_zero, List.append_nil]

/-- The `src ++ "-" ++ target` part of a cache key determines the language
pair: two pairs of codes that concatenate to the same string are equal. -/
theorem codes_pair_inj (s1 t1 s2 t2 : String)
    (hs1 : s1 ∈ langCodes) (hs2 : s2 ∈ langCodes)
    (h : s1.data ++ '-' :: t1.data = s2.data ++ '-' :: t2.data) :
    s1 = s2 ∧ t1 = t2 := by
  rcases Nat.lt_trichotomy s1.data.length s2.data.length with hlt | heq | hgt
  · exfalso
    apply codes_no_dash_ext s1 hs1 s2 hs2
    have ht := congrArg (List.take (s1.data.length + 1)) h
    rw [take_len_succ_append, take_append_le s2.data _ _ hlt] at ht
    exact ht.symm
  · obtain ⟨hA, hB⟩ := List.append_inj h heq
    injection hB with _ hB2
    exact ⟨String.ext hA, String.ext hB2⟩
  · exfalso
    apply codes_no_dash_ext s2 hs2 s1 hs1
    have ht := congrArg (List.take (s2.data.length + 1)) h.symm
    rw [take_len_succ_append, take_append_le s1.data _ _ hgt] at ht
    exact ht.symm

/-- The characters of a cache key: the pair part, a colon, the text. -/
theorem cache_key_data (s t c : String) :
    (cache_key s t c).data = (s.data ++ '-' :: t.data) ++ ':' :: c.data := by
  have hd : ("-" : String).data = ['-'] := rfl
  have hc : (":" : String).data = [':'] := rfl
  simp [cache_key, String.data_append, hd, hc]

/-- Claim C8: `cache_key` is injective on (source code, target code, trimmed
text): over the language codes of `LANG_MAP`, two triples that differ in the
source language, the target language or the text produce different cache
keys, so a cache lookup for one (pair, text) can never return the value
stored for another. -/
theorem c8_cache_key_injective (s1 t1 s2 t2 c1 c2 : String)
    (hs1 : s1 ∈ langCodes) (ht1 : t1 ∈ langCodes)
    (hs2 : s2 ∈ langCodes) (ht2 : t2 ∈ langCodes)
    (h : cache_key s1 t1 c1 = cache_key s2 t2 c2) :
    s1 = s2 ∧ t1 = t2 ∧ c1 = c2 := by
  have hd := congrArg String.data h
  rw [cache_key_data, cache_key_data] at hd
  have hnc1 : ':' ∉ s1.data ++ '-' :: t1.data := by
    intro hm
    rcases List.mem_append.mp hm with hm | hm
    · exact codes_no_colon s1 hs1 hm
    · rcases List.mem_cons.mp hm with hm | hm
      · exact absurd hm (by decide)
      · exact codes_no_colon t1 ht1 hm
  have hnc2 : ':' ∉ s2.data ++ '-' :: t2.data := by
    intro hm
    rcases List.mem_append.mp hm with hm | hm
    · exact codes_no_colon s2 hs2 hm
    · rcases List.mem_cons.mp hm with hm | hm
      · exact absurd hm (by decide)
      · exact codes_no_colon t2 ht2 hm
  obtain ⟨hA, hC⟩ := append_sep_inj ':' _ _ _ _ hnc1 hnc2 hd
  obtain ⟨hs, htg⟩ := codes_pair_inj s1 t1 s2 t2 hs1 hs2 hA
  exact ⟨hs, htg, String.ext hC⟩

/-- Claim C8, witness: the injectivity theorem applied at the concrete pair
("en", "fr") and text "Hello". -/
theorem c8_witness : "en" = "en" ∧ "fr" = "fr" ∧ "Hello" = "Hello" :=
  c8_cache_key_injective "en" "fr" "en" "fr" "Hello" "Hello"
    (by decide) (by decide) (by decide) (by decide) rfl

end Translet
